import Mathlib

/-!
Verification development for the `gplus` data-access layer (`src/gplus/dao.go`).

The Go code is shallowly embedded as pure Lean functions:

* `gorm.DB` is embedded as the `GormDB` record of the clauses accumulated on a
  statement handle (conditions, distinct/select columns, order/group/having,
  offset/limit, create calls), together with the handle's `Error` and
  `RowsAffected` fields and an instrumentation list `events` recording which
  queries (count / data) were executed through the handle, in order.
  gorm chain methods called on an initialized handle mutate that handle in
  place (`getDb` returns `globalDb.Clauses()`, an initialized instance; see the
  comment at dao.go:349), so each chain call is embedded as a state update and
  the state is threaded explicitly even where the Go code discards the return
  value (e.g. `resultDb.Distinct(...)` at dao.go:272).
* `strings.Builder` fields are embedded as `String`, `[]any` argument slices as
  `List Val`, and Go maps as association lists (`List (String × Val)`); using a
  list fixes one iteration order, which no settled claim depends on.
* The external database is embedded as an `Executor` oracle saying what the
  count query, the `First` query and the data query would produce.
* `int`/`int64` are embedded as `Int`; none of the settled claims concerns
  64-bit overflow behaviour.
-/

namespace GormPlus

/-- A runtime value bound to a positional placeholder (`any` in Go). -/
inductive Val where
  | intV : Int → Val
  | strV : String → Val
  | boolV : Bool → Val
  | nullV : Val
deriving Repr, DecidableEq

/-- An error value surfaced through `gorm.DB.Error`.  `recordNotFound` embeds
gorm's `ErrRecordNotFound`, which `First` reports when no row matches. -/
inductive GormErr where
  | recordNotFound : GormErr
  | execError : String → GormErr
deriving Repr, DecidableEq

/-- Instrumentation: which query a handle executed. -/
inductive QueryEvent where
  | countQuery : QueryEvent
  | dataQuery : QueryEvent
deriving Repr, DecidableEq

/-- One condition registered on a handle: either a textual predicate with its
positional arguments (`Where(text, args...)`, dao.go:291) or a column/value
equality map (`Where(condMap)`, dao.go:300).  The list of conditions on a
handle is conjoined (ANDed) by gorm in registration order. -/
inductive Cond where
  | expr : String → List Val → Cond
  | mapCond : List (String × Val) → Cond
deriving Repr, DecidableEq

/-- What the external database would answer; consulted by the embedded
`Count`, `First` and `Find`/`Scan` calls. -/
inductive FirstOutcome where
  | found : Val → FirstOutcome
  | notFound : FirstOutcome
  | failure : GormErr → FirstOutcome
deriving Repr, DecidableEq

structure Executor where
  countErr : Option GormErr := none
  countValue : Int := 0
  firstOutcome : FirstOutcome := FirstOutcome.notFound
  findRows : List Val := []
deriving Repr, DecidableEq

/-- The state of a `*gorm.DB` statement handle. -/
structure GormDB where
  conds : List Cond := []
  distinctCols : List String := []
  selectCols : List String := []
  orderClause : Option String := none
  groupClause : Option String := none
  havingConds : List (String × List Val) := []
  offsetVal : Option Int := none
  limitVal : Option Int := none
  error : Option GormErr := none
  rowsAffected : Int := 0
  creates : List (List Val × Int) := []
  events : List QueryEvent := []
deriving Repr, DecidableEq

def GormDB.Where (db : GormDB) (text : String) (args : List Val) : GormDB :=
  { db with conds := db.conds ++ [Cond.expr text args] }

def GormDB.WhereMap (db : GormDB) (m : List (String × Val)) : GormDB :=
  { db with conds := db.conds ++ [Cond.mapCond m] }

def GormDB.Distinct (db : GormDB) (cols : List String) : GormDB :=
  { db with distinctCols := cols }

def GormDB.Select (db : GormDB) (cols : List String) : GormDB :=
  { db with selectCols := cols }

def GormDB.Order (db : GormDB) (s : String) : GormDB :=
  { db with orderClause := some s }

def GormDB.Group (db : GormDB) (s : String) : GormDB :=
  { db with groupClause := some s }

def GormDB.Having (db : GormDB) (text : String) (args : List Val) : GormDB :=
  { db with havingConds := db.havingConds ++ [(text, args)] }

def GormDB.Offset (db : GormDB) (n : Int) : GormDB :=
  { db with offsetVal := some n }

def GormDB.Limit (db : GormDB) (n : Int) : GormDB :=
  { db with limitVal := some n }

def GormDB.CreateInBatches (db : GormDB) (records : List Val) (batchSize : Int) : GormDB :=
  { db with creates := db.creates ++ [(records, batchSize)] }

/-- `resultDb.Count(&count)` (dao.go:248): runs the count query; on success the
out-parameter receives the count, on failure it keeps its zero value and the
handle's `Error` is set. -/
def GormDB.Count (db : GormDB) (ex : Executor) : Int × GormDB :=
  match ex.countErr with
  | none => (ex.countValue, { db with events := db.events ++ [QueryEvent.countQuery] })
  | some e =>
    (0, { db with error := some e, events := db.events ++ [QueryEvent.countQuery] })

/-- `resultDb.First(&entity)` (dao.go:155): gorm's `First` reports
`ErrRecordNotFound` (with `RowsAffected = 0`) when no row matches, one row and
no error when a row matches, and the execution error otherwise. -/
def GormDB.First (db : GormDB) (ex : Executor) : Val × GormDB :=
  match ex.firstOutcome with
  | FirstOutcome.found v =>
    (v, { db with rowsAffected := 1, events := db.events ++ [QueryEvent.dataQuery] })
  | FirstOutcome.notFound =>
    (Val.nullV, { db with rowsAffected := 0, error := some GormErr.recordNotFound,
                          events := db.events ++ [QueryEvent.dataQuery] })
  | FirstOutcome.failure e =>
    (Val.nullV, { db with rowsAffected := 0, error := some e,
                          events := db.events ++ [QueryEvent.dataQuery] })

/-- `resultDb.Find(&results)`: runs the data query and materializes the rows. -/
def GormDB.Find (db : GormDB) (ex : Executor) : List Val × GormDB :=
  (ex.findRows, { db with rowsAffected := (ex.findRows.length : Int),
                          events := db.events ++ [QueryEvent.dataQuery] })

/-- `resultDb.Scan(&results)`: same observable shape as `Find` in this model. -/
def GormDB.Scan (db : GormDB) (ex : Executor) : List Val × GormDB :=
  (ex.findRows, { db with rowsAffected := (ex.findRows.length : Int),
                          events := db.events ++ [QueryEvent.dataQuery] })

/-- `getDb` (dao.go:343): resolves a fresh initialized statement handle.  The
`OptionFunc` plumbing (handle override, select/omit columns) lives in a file
that is not part of the sources under analysis and no settled claim depends on
it, so the embedded `getDb` returns a fresh handle. -/
def getDb : GormDB := {}

/-- The condition-builder state `Query[T]` (the struct itself is declared in
`query.go`, which is not among the sources; its fields and their types are
pinned down by their uses in dao.go lines 267-316: `QueryBuilder`,
`AndBracketBuilder`, `OrBracketBuilder`, `OrderBuilder`, `GroupBuilder` and
`HavingBuilder` are `strings.Builder`s, the `*Args` fields are `[]any`, and
`ConditionMap` is a map from field name to value). -/
structure Query where
  DistinctColumns : List String := []
  SelectColumns : List String := []
  QueryBuilder : String := ""
  QueryArgs : List Val := []
  AndBracketBuilder : String := ""
  AndBracketArgs : List Val := []
  OrBracketBuilder : String := ""
  OrBracketArgs : List Val := []
  ConditionMap : List (String × Val) := []
  OrderBuilder : String := ""
  GroupBuilder : String := ""
  HavingBuilder : String := ""
  HavingArgs : List Val := []
deriving Repr, DecidableEq

/-- The in-place mutation of the query performed by dao.go:279-289: when the
root predicate is non-empty, the AND-bracket text and arguments and then the
OR-bracket text and arguments are appended to `QueryBuilder`/`QueryArgs`
(each group only when its builder is non-empty).  In the Go code this happens
inline inside `buildCondition` by assigning to `q.QueryArgs` and writing to
`q.QueryBuilder`; it is factored out here so the mutated query is explicit. -/
def bracketedQuery (q : Query) : Query :=
  if q.QueryBuilder.length > 0 then
    let q1 :=
      if q.AndBracketBuilder.length > 0 then
        { q with QueryArgs := q.QueryArgs ++ q.AndBracketArgs,
                 QueryBuilder := q.QueryBuilder ++ q.AndBracketBuilder }
      else q
    if q1.OrBracketBuilder.length > 0 then
      { q1 with QueryArgs := q1.QueryArgs ++ q1.OrBracketArgs,
                QueryBuilder := q1.QueryBuilder ++ q1.OrBracketBuilder }
    else q1
  else q

/-- `buildCondition` (dao.go:267-316).  `getColumnName` (declared outside the
analyzed sources) is taken as a parameter: the column-name resolver capability
applied to each `ConditionMap` key at compile time (dao.go:297).  Returns the
mutated query (Go mutates `q` through the pointer) together with the handle.
The `q != nil` guard is omitted: every embedded caller passes a query value.
Note the root `Where` is guarded by the length of the *updated* builder, which
is non-empty exactly when the original root builder is (appending cannot make
a non-empty string empty, and nothing is appended to an empty root). -/
def buildCondition (getColumnName : String → String) (q0 : Query) : Query × GormDB :=
  let resultDb := getDb
  let resultDb :=
    if q0.DistinctColumns.length > 0 then resultDb.Distinct q0.DistinctColumns else resultDb
  let resultDb :=
    if q0.SelectColumns.length > 0 then resultDb.Select q0.SelectColumns else resultDb
  let q := bracketedQuery q0
  let resultDb :=
    if q.QueryBuilder.length > 0 then resultDb.Where q.QueryBuilder q.QueryArgs else resultDb
  let resultDb :=
    if q.ConditionMap.length > 0 then
      resultDb.WhereMap (q.ConditionMap.map fun kv => (getColumnName kv.1, kv.2))
    else resultDb
  let resultDb := if q.OrderBuilder.length > 0 then resultDb.Order q.OrderBuilder else resultDb
  let resultDb := if q.GroupBuilder.length > 0 then resultDb.Group q.GroupBuilder else resultDb
  let resultDb :=
    if q.HavingBuilder.length > 0 then resultDb.Having q.HavingBuilder q.HavingArgs else resultDb
  (q, resultDb)

/-- The page descriptor `Page[T]` (dao.go:37-42); records are embedded as
`Val`s. -/
structure Page where
  Current : Int
  Size : Int
  Total : Int := 0
  Records : List Val := []
deriving Repr, DecidableEq

def NewPage (current size : Int) : Page :=
  { Current := current, Size := size }

/-- `paginate` (dao.go:252-265): captures `Current` and `Size` into locals,
defaults them, and applies `Offset`/`Limit` to the handle.  The defaulting
happens on the captured locals only; the page itself is not written. -/
def paginate (p : Page) (db : GormDB) : GormDB :=
  let page := p.Current
  let pageSize := p.Size
  let page := if page ≤ 0 then 1 else page
  let pageSize := if pageSize ≤ 0 then 10 else pageSize
  let offset := (page - 1) * pageSize
  (db.Offset offset).Limit pageSize

/-- `SelectCount` (dao.go:245-250).  The mutated query is returned as an extra
component to make the in-place mutation of `q` by `buildCondition` explicit. -/
def SelectCount (getColumnName : String → String) (ex : Executor) (q : Query) :
    Int × Query × GormDB :=
  let built := buildCondition getColumnName q
  let counted := built.2.Count ex
  (counted.1, built.1, counted.2)

/-- `SelectPage` (dao.go:199-210).  The third component is the instrumented
trace of queries issued across the whole call, in execution order. -/
def SelectPage (getColumnName : String → String) (ex : Executor) (page : Page) (q : Query) :
    Page × GormDB × List QueryEvent :=
  let countRes := SelectCount getColumnName ex q
  let countDb := countRes.2.2
  if countDb.error.isSome then (page, countDb, countDb.events)
  else
    let page1 := { page with Total := countRes.1 }
    let resultDb := (buildCondition getColumnName countRes.2.1).2
    let resultDb := paginate page1 resultDb
    let findRes := resultDb.Find ex
    ({ page1 with Records := findRes.1 }, findRes.2, countDb.events ++ findRes.2.events)

/-- `SelectPageModel` (dao.go:215-226): same control flow as `SelectPage` but
materializes through `Scan`. -/
def SelectPageModel (getColumnName : String → String) (ex : Executor) (page : Page)
    (q : Query) : Page × GormDB × List QueryEvent :=
  let countRes := SelectCount getColumnName ex q
  let countDb := countRes.2.2
  if countDb.error.isSome then (page, countDb, countDb.events)
  else
    let page1 := { page with Total := countRes.1 }
    let resultDb := (buildCondition getColumnName countRes.2.1).2
    let resultDb := paginate page1 resultDb
    let scanRes := resultDb.Scan ex
    ({ page1 with Records := scanRes.1 }, scanRes.2, countDb.events ++ scanRes.2.events)

/-- `SelectPageMaps` (dao.go:229-242): same control flow, but the result rows
are appended to the page's existing `Records` (the Go loop at dao.go:238-240
uses `append`). -/
def SelectPageMaps (getColumnName : String → String) (ex : Executor) (page : Page)
    (q : Query) : Page × GormDB × List QueryEvent :=
  let countRes := SelectCount getColumnName ex q
  let countDb := countRes.2.2
  if countDb.error.isSome then (page, countDb, countDb.events)
  else
    let page1 := { page with Total := countRes.1 }
    let resultDb := (buildCondition getColumnName countRes.2.1).2
    let resultDb := paginate page1 resultDb
    let findRes := resultDb.Find ex
    ({ page1 with Records := page1.Records ++ findRes.1 }, findRes.2,
      countDb.events ++ findRes.2.events)

/-- `SelectOne` (dao.go:152-156). -/
def SelectOne (getColumnName : String → String) (ex : Executor) (q : Query) :
    Val × Query × GormDB :=
  let built := buildCondition getColumnName q
  let firstRes := built.2.First ex
  (firstRes.1, built.1, firstRes.2)

/-- `Exists` (dao.go:159-162): `return dbRes.RowsAffected > 0, dbRes.Error`. -/
def Exists (getColumnName : String → String) (ex : Executor) (q : Query) :
    Bool × Option GormErr :=
  let dbRes := (SelectOne getColumnName ex q).2.2
  (decide (dbRes.rowsAffected > 0), dbRes.error)

/-- `defaultBatchSize` (dao.go:31). -/
def defaultBatchSize : Int := 1000

/-- `InsertBatch` (dao.go:63-70); the handle resolved by `getDb(opts...)` is a
parameter. -/
def InsertBatch (entities : List Val) (db : GormDB) : GormDB :=
  if entities.length = 0 then db
  else db.CreateInBatches entities defaultBatchSize

/-- `InsertBatchSize` (dao.go:73-83). -/
def InsertBatchSize (entities : List Val) (batchSize : Int) (db : GormDB) : GormDB :=
  if entities.length = 0 then db
  else
    let batchSize := if batchSize ≤ 0 then defaultBatchSize else batchSize
    db.CreateInBatches entities batchSize

/-- One struct field as seen by `getPkColumnName` after gorm's tag parsing
(`schema.ParseTagSetting` / `utils.CheckTruth`, dao.go:325-326, both external
library code): the field identifier, whether its tag marks it as primary key,
and the explicit `column:` tag value when present.  Note a tag `column:` with
an empty value parses to a present-but-empty setting (`ok == true`,
`name == ""`). -/
structure GoField where
  name : String
  isPrimaryKey : Bool
  columnTag : Option String
deriving Repr, DecidableEq

/-- The loop of `getPkColumnName` (dao.go:323-336): first field marked primary
key wins (`break`); its explicit `column:` tag if present, otherwise the
naming-strategy transformation of the field identifier; `""` when no field is
marked. -/
def findPkColumn (naming : String → String) : List GoField → String
  | [] => ""
  | f :: rest =>
    if f.isPrimaryKey then
      match f.columnTag with
      | some n => n
      | none => naming f.name
    else findPkColumn naming rest

/-- Modelled from the spec: `constants.DefaultPrimaryName`, the statically
configured default primary-key column name; the `constants` package is not
among the analyzed sources, and the spec gives the default as `"id"`. -/
def DefaultPrimaryName : String := "id"

/-- `getPkColumnName` (dao.go:318-341).  `naming` embeds the external
`schema.NamingStrategy{}.ColumnName("", fieldName)` conventional (snake_case)
transformation, which no settled claim interprets. -/
def getPkColumnName (naming : String → String) (fields : List GoField) : String :=
  let columnName := findPkColumn naming fields
  if columnName = "" then DefaultPrimaryName else columnName

/-- Modelled from the spec: the effective page number — "if `current <= 0`,
treat as 1" (spec section 4.3). -/
def effectiveCurrent (current : Int) : Int := if current ≤ 0 then 1 else current

/-- Modelled from the spec: the effective page size — "if `size <= 0`, treat
as 10" (spec section 4.3). -/
def effectiveSize (size : Int) : Int := if size ≤ 0 then 10 else size

/-- Modelled from the spec: `computeOffsetLimit(current, size) -> (offset,
limit)` with `offset = (current-1) * size`, `limit = size` after defaulting
(spec sections 4.3 and 8). -/
def computeOffsetLimit (current size : Int) : Int × Int :=
  ((effectiveCurrent current - 1) * effectiveSize size, effectiveSize size)

/-- Number of `?` placeholders textually present in a predicate string. -/
def countPlaceholders (s : String) : Nat :=
  s.data.countP fun c => c == '?'

/-- Placeholders contributed by one registered condition: the `?`s of a
textual predicate; one per column for an equality map (gorm renders each map
entry as one `column = ?` term). -/
def Cond.placeholders : Cond → Nat
  | Cond.expr text _ => countPlaceholders text
  | Cond.mapCond m => m.length

/-- Positional arguments contributed by one registered condition. -/
def Cond.argCount : Cond → Nat
  | Cond.expr _ args => args.length
  | Cond.mapCond m => m.length

/-- All placeholders of a compiled handle (where-conditions plus having). -/
def GormDB.totalPlaceholders (db : GormDB) : Nat :=
  (db.conds.map Cond.placeholders).sum
    + (db.havingConds.map fun h => countPlaceholders h.1).sum

/-- All positional arguments of a compiled handle. -/
def GormDB.totalArgs (db : GormDB) : Nat :=
  (db.conds.map Cond.argCount).sum + (db.havingConds.map fun h => h.2.length).sum

/-! ### String helper lemmas -/

theorem strDataAppend (s t : String) : (s ++ t).data = s.data ++ t.data := rfl

theorem strAppendEmpty (s : String) : s ++ "" = s := by
  apply String.ext
  rw [strDataAppend]
  simp

theorem strLengthAppend (s t : String) : (s ++ t).length = s.length + t.length := by
  show (s ++ t).data.length = s.data.length + t.data.length
  rw [strDataAppend, List.length_append]

theorem strEmptyOfNotLengthPos (s : String) (h : ¬ s.length > 0) : s = "" := by
  apply String.ext
  have h0 : s.data.length = 0 := by
    have : s.length = s.data.length := rfl
    omega
  simpa using List.length_eq_zero.mp h0

theorem strLengthPosAppend (s t : String) (h : s.length > 0) : (s ++ t).length > 0 := by
  rw [strLengthAppend]; omega

theorem countPlaceholders_append (s t : String) :
    GormPlus.countPlaceholders (s ++ t) =
      GormPlus.countPlaceholders s + GormPlus.countPlaceholders t := by
  simp [GormPlus.countPlaceholders, strDataAppend, List.countP_append]

theorem countPlaceholders_empty : GormPlus.countPlaceholders "" = 0 := rfl

/-! ### Characterization of `bracketedQuery` -/

theorem bracketedQuery_root_zero (q : Query) (h : ¬ q.QueryBuilder.length > 0) :
    bracketedQuery q = q := by
  simp [bracketedQuery, h]

theorem bracketedQuery_preserves (q : Query) :
    (bracketedQuery q).DistinctColumns = q.DistinctColumns ∧
    (bracketedQuery q).SelectColumns = q.SelectColumns ∧
    (bracketedQuery q).AndBracketBuilder = q.AndBracketBuilder ∧
    (bracketedQuery q).AndBracketArgs = q.AndBracketArgs ∧
    (bracketedQuery q).OrBracketBuilder = q.OrBracketBuilder ∧
    (bracketedQuery q).OrBracketArgs = q.OrBracketArgs ∧
    (bracketedQuery q).ConditionMap = q.ConditionMap ∧
    (bracketedQuery q).OrderBuilder = q.OrderBuilder ∧
    (bracketedQuery q).GroupBuilder = q.GroupBuilder ∧
    (bracketedQuery q).HavingBuilder = q.HavingBuilder ∧
    (bracketedQuery q).HavingArgs = q.HavingArgs := by
  by_cases h : q.QueryBuilder.length > 0 <;>
    by_cases hA : q.AndBracketBuilder.length > 0 <;>
      by_cases hO : q.OrBracketBuilder.length > 0 <;>
        simp [bracketedQuery, h, hA, hO]

theorem bracketedQuery_QueryBuilder (q : Query) (h : q.QueryBuilder.length > 0) :
    (bracketedQuery q).QueryBuilder =
      q.QueryBuilder ++ q.AndBracketBuilder ++ q.OrBracketBuilder := by
  by_cases hA : q.AndBracketBuilder.length > 0 <;>
    by_cases hO : q.OrBracketBuilder.length > 0 <;>
      simp [bracketedQuery, h, hA, hO]
  · rw [strEmptyOfNotLengthPos _ hO, strAppendEmpty]
  · rw [strEmptyOfNotLengthPos _ hA, strAppendEmpty]
  · rw [strEmptyOfNotLengthPos _ hA, strEmptyOfNotLengthPos _ hO,
      strAppendEmpty, strAppendEmpty]

theorem bracketedQuery_QueryArgs (q : Query) (h : q.QueryBuilder.length > 0)
    (hA : q.AndBracketBuilder = "" → q.AndBracketArgs = [])
    (hO : q.OrBracketBuilder = "" → q.OrBracketArgs = []) :
    (bracketedQuery q).QueryArgs =
      q.QueryArgs ++ q.AndBracketArgs ++ q.OrBracketArgs := by
  by_cases hA1 : q.AndBracketBuilder.length > 0 <;>
    by_cases hO1 : q.OrBracketBuilder.length > 0 <;>
      simp [bracketedQuery, h, hA1, hO1]
  · rw [hO (strEmptyOfNotLengthPos _ hO1)]
  · rw [hA (strEmptyOfNotLengthPos _ hA1)]
  · rw [hA (strEmptyOfNotLengthPos _ hA1), hO (strEmptyOfNotLengthPos _ hO1)]; simp

theorem bracketedQuery_root_pos (q : Query) (h : q.QueryBuilder.length > 0) :
    (bracketedQuery q).QueryBuilder.length > 0 := by
  rw [bracketedQuery_QueryBuilder q h]
  exact strLengthPosAppend _ _ (strLengthPosAppend _ _ h)

/-! ### Pushing record projections through conditionals -/

theorem ite_conds (c : Prop) [Decidable c] (a b : GormDB) :
    (if c then a else b).conds = if c then a.conds else b.conds := by split <;> rfl

theorem ite_havingConds (c : Prop) [Decidable c] (a b : GormDB) :
    (if c then a else b).havingConds = if c then a.havingConds else b.havingConds := by
  split <;> rfl

theorem ite_error (c : Prop) [Decidable c] (a b : GormDB) :
    (if c then a else b).error = if c then a.error else b.error := by split <;> rfl

theorem ite_events (c : Prop) [Decidable c] (a b : GormDB) :
    (if c then a else b).events = if c then a.events else b.events := by split <;> rfl

/-! ### Per-operation projection lemmas (each is a definitional fact) -/

@[simp] theorem Distinct_conds (db : GormDB) (c : List String) :
    (db.Distinct c).conds = db.conds := rfl
@[simp] theorem Select_conds (db : GormDB) (c : List String) :
    (db.Select c).conds = db.conds := rfl
@[simp] theorem Where_conds (db : GormDB) (t : String) (a : List Val) :
    (db.Where t a).conds = db.conds ++ [Cond.expr t a] := rfl
@[simp] theorem WhereMap_conds (db : GormDB) (m : List (String × Val)) :
    (db.WhereMap m).conds = db.conds ++ [Cond.mapCond m] := rfl
@[simp] theorem Order_conds (db : GormDB) (s : String) :
    (db.Order s).conds = db.conds := rfl
@[simp] theorem Group_conds (db : GormDB) (s : String) :
    (db.Group s).conds = db.conds := rfl
@[simp] theorem Having_conds (db : GormDB) (t : String) (a : List Val) :
    (db.Having t a).conds = db.conds := rfl
@[simp] theorem Offset_conds (db : GormDB) (n : Int) :
    (db.Offset n).conds = db.conds := rfl
@[simp] theorem Limit_conds (db : GormDB) (n : Int) :
    (db.Limit n).conds = db.conds := rfl

@[simp] theorem Distinct_havingConds (db : GormDB) (c : List String) :
    (db.Distinct c).havingConds = db.havingConds := rfl
@[simp] theorem Select_havingConds (db : GormDB) (c : List String) :
    (db.Select c).havingConds = db.havingConds := rfl
@[simp] theorem Where_havingConds (db : GormDB) (t : String) (a : List Val) :
    (db.Where t a).havingConds = db.havingConds := rfl
@[simp] theorem WhereMap_havingConds (db : GormDB) (m : List (String × Val)) :
    (db.WhereMap m).havingConds = db.havingConds := rfl
@[simp] theorem Order_havingConds (db : GormDB) (s : String) :
    (db.Order s).havingConds = db.havingConds := rfl
@[simp] theorem Group_havingConds (db : GormDB) (s : String) :
    (db.Group s).havingConds = db.havingConds := rfl
@[simp] theorem Having_havingConds (db : GormDB) (t : String) (a : List Val) :
    (db.Having t a).havingConds = db.havingConds ++ [(t, a)] := rfl

@[simp] theorem Distinct_error (db : GormDB) (c : List String) :
    (db.Distinct c).error = db.error := rfl
@[simp] theorem Select_error (db : GormDB) (c : List String) :
    (db.Select c).error = db.error := rfl
@[simp] theorem Where_error (db : GormDB) (t : String) (a : List Val) :
    (db.Where t a).error = db.error := rfl
@[simp] theorem WhereMap_error (db : GormDB) (m : List (String × Val)) :
    (db.WhereMap m).error = db.error := rfl
@[simp] theorem Order_error (db : GormDB) (s : String) :
    (db.Order s).error = db.error := rfl
@[simp] theorem Group_error (db : GormDB) (s : String) :
    (db.Group s).error = db.error := rfl
@[simp] theorem Having_error (db : GormDB) (t : String) (a : List Val) :
    (db.Having t a).error = db.error := rfl
@[simp] theorem Offset_error (db : GormDB) (n : Int) :
    (db.Offset n).error = db.error := rfl
@[simp] theorem Limit_error (db : GormDB) (n : Int) :
    (db.Limit n).error = db.error := rfl

@[simp] theorem Distinct_events (db : GormDB) (c : List String) :
    (db.Distinct c).events = db.events := rfl
@[simp] theorem Select_events (db : GormDB) (c : List String) :
    (db.Select c).events = db.events := rfl
@[simp] theorem Where_events (db : GormDB) (t : String) (a : List Val) :
    (db.Where t a).events = db.events := rfl
@[simp] theorem WhereMap_events (db : GormDB) (m : List (String × Val)) :
    (db.WhereMap m).events = db.events := rfl
@[simp] theorem Order_events (db : GormDB) (s : String) :
    (db.Order s).events = db.events := rfl
@[simp] theorem Group_events (db : GormDB) (s : String) :
    (db.Group s).events = db.events := rfl
@[simp] theorem Having_events (db : GormDB) (t : String) (a : List Val) :
    (db.Having t a).events = db.events := rfl
@[simp] theorem Offset_events (db : GormDB) (n : Int) :
    (db.Offset n).events = db.events := rfl
@[simp] theorem Limit_events (db : GormDB) (n : Int) :
    (db.Limit n).events = db.events := rfl

/-! ### Characterization of `buildCondition` -/

theorem buildCondition_fst (r : String → String) (q : Query) :
    (buildCondition r q).1 = bracketedQuery q := rfl

theorem buildCondition_conds (r : String → String) (q : Query) :
    (buildCondition r q).2.conds =
      (if (bracketedQuery q).QueryBuilder.length > 0 then
        [Cond.expr (bracketedQuery q).QueryBuilder (bracketedQuery q).QueryArgs]
      else []) ++
      (if q.ConditionMap.length > 0 then
        [Cond.mapCond (q.ConditionMap.map fun kv => (r kv.1, kv.2))]
      else []) := by
  have hp := (bracketedQuery_preserves q).2.2.2.2.2.2.1
  simp only [buildCondition, ite_conds, Distinct_conds, Select_conds, Where_conds,
    WhereMap_conds, Order_conds, Group_conds, Having_conds, hp]
  simp only [getDb, ite_self]
  split_ifs <;> simp

theorem buildCondition_havingConds (r : String → String) (q : Query) :
    (buildCondition r q).2.havingConds =
      (if q.HavingBuilder.length > 0 then [(q.HavingBuilder, q.HavingArgs)] else []) := by
  have hpB := (bracketedQuery_preserves q).2.2.2.2.2.2.2.2.2.1
  have hpA := (bracketedQuery_preserves q).2.2.2.2.2.2.2.2.2.2
  simp only [buildCondition, ite_havingConds, Distinct_havingConds, Select_havingConds,
    Where_havingConds, WhereMap_havingConds, Order_havingConds, Group_havingConds,
    Having_havingConds, hpB, hpA, ite_self]
  simp only [getDb]
  split_ifs <;> simp

theorem buildCondition_error (r : String → String) (q : Query) :
    (buildCondition r q).2.error = none := by
  simp only [buildCondition, ite_error, Distinct_error, Select_error, Where_error,
    WhereMap_error, Order_error, Group_error, Having_error, ite_self]
  rfl

theorem buildCondition_events (r : String → String) (q : Query) :
    (buildCondition r q).2.events = [] := by
  simp only [buildCondition, ite_events, Distinct_events, Select_events, Where_events,
    WhereMap_events, Order_events, Group_events, Having_events, ite_self]
  rfl

/-! ### Concrete builder states used by witnesses and counterexamples -/

/-- The builder state of the spec's worked example: root term `Eq("status",1)`,
an AND-group with `Eq("city","NY")` and `Eq("zip","10001")`, an OR-group with
`Eq("vip",true)` (texts as the fluent layer produces them: the bracket
builders carry their connector and parentheses). -/
def exampleQuery : Query :=
  { QueryBuilder := "status = ?"
    QueryArgs := [Val.intV 1]
    AndBracketBuilder := " AND (city = ? AND zip = ?)"
    AndBracketArgs := [Val.strV "NY", Val.strV "10001"]
    OrBracketBuilder := " OR (vip = ?)"
    OrBracketArgs := [Val.boolV true] }

/-- A builder state with an empty root predicate but a non-empty AND-group. -/
def emptyRootQuery : Query :=
  { AndBracketBuilder := " AND (city = ?)"
    AndBracketArgs := [Val.strV "NY"] }

/-! ### Claim C1 -/

/-- C1 (counterexample): the claim asserts that whenever an AND-group or
OR-group is non-empty its clause and arguments appear in the compiled
statement.  On a builder whose root predicate is empty this fails: dao.go:279
guards all bracket handling and the root `Where` behind
`q.QueryBuilder.Len() > 0`, so the compiled handle carries no condition at
all even though the AND-group and its argument are non-empty. -/
theorem buildCondition_empty_root_drops_brackets :
    emptyRootQuery.AndBracketBuilder.length > 0 ∧
    emptyRootQuery.AndBracketArgs ≠ [] ∧
    (buildCondition (fun s => s) emptyRootQuery).2.conds = [] := by decide

/-- C1 (amended): provided the root predicate is non-empty, `buildCondition`
compiles in the fixed order: root text, then the AND-group clause with its
arguments appended after the root arguments, then the OR-group clause with
its arguments appended last, then the column-resolved equality-map condition
after the bracket groups; when the root predicate is empty the bracket groups
are dropped and only the equality-map condition is registered.  (The side
conditions say an empty bracket group carries no arguments, which holds for
every fluently-built state.) -/
theorem buildCondition_compiles_in_fixed_order (resolve : String → String) (q : Query)
    (hA : q.AndBracketBuilder = "" → q.AndBracketArgs = [])
    (hO : q.OrBracketBuilder = "" → q.OrBracketArgs = []) :
    (buildCondition resolve q).2.conds =
      (if q.QueryBuilder.length > 0 then
        [Cond.expr (q.QueryBuilder ++ q.AndBracketBuilder ++ q.OrBracketBuilder)
          (q.QueryArgs ++ q.AndBracketArgs ++ q.OrBracketArgs)]
      else []) ++
      (if q.ConditionMap.length > 0 then
        [Cond.mapCond (q.ConditionMap.map fun kv => (resolve kv.1, kv.2))]
      else []) := by
  rw [buildCondition_conds]
  by_cases h : q.QueryBuilder.length > 0
  · rw [if_pos h, if_pos (bracketedQuery_root_pos q h),
      bracketedQuery_QueryBuilder q h, bracketedQuery_QueryArgs q h hA hO]
  · rw [bracketedQuery_root_zero q h, if_neg h, if_neg h]

/-- C1 (witness): the spec's worked example compiles to the predicate
`status = ? AND (city = ? AND zip = ?) OR (vip = ?)` with arguments
`[1, "NY", "10001", true]`. -/
theorem buildCondition_compiles_in_fixed_order_witness :
    (buildCondition (fun s => s) exampleQuery).2.conds =
      [Cond.expr "status = ? AND (city = ? AND zip = ?) OR (vip = ?)"
        [Val.intV 1, Val.strV "NY", Val.strV "10001", Val.boolV true]] := by
  have h := buildCondition_compiles_in_fixed_order (fun s => s) exampleQuery
    (by decide) (by decide)
  exact h.trans (by decide)

/-! ### Claim C2 -/

theorem sum_map_eq_of_forall {α : Type} (l : List α) (f g : α → Nat)
    (h : ∀ x ∈ l, f x = g x) : (l.map f).sum = (l.map g).sum := by
  induction l with
  | nil => rfl
  | cons a t ih =>
    simp only [List.map_cons, List.sum_cons]
    rw [h a (by simp), ih fun x hx => h x (by simp [hx])]

/-- C2: if the root, AND-group, OR-group and having components each pair one
argument per `?` placeholder, then every condition the compiled handle
registers is balanced (its placeholder count equals its argument count —
which, the fragments being concatenated left to right, is exactly the
statement that argument i sits at placeholder i), and in total the compiled
statement has as many positional arguments as placeholders. -/
theorem buildCondition_placeholder_arg_balance (resolve : String → String) (q : Query)
    (h1 : countPlaceholders q.QueryBuilder = q.QueryArgs.length)
    (h2 : countPlaceholders q.AndBracketBuilder = q.AndBracketArgs.length)
    (h3 : countPlaceholders q.OrBracketBuilder = q.OrBracketArgs.length)
    (h4 : countPlaceholders q.HavingBuilder = q.HavingArgs.length) :
    (∀ c ∈ (buildCondition resolve q).2.conds, c.placeholders = c.argCount) ∧
    (∀ hv ∈ (buildCondition resolve q).2.havingConds,
      countPlaceholders hv.1 = hv.2.length) ∧
    (buildCondition resolve q).2.totalPlaceholders =
      (buildCondition resolve q).2.totalArgs := by
  have hA : q.AndBracketBuilder = "" → q.AndBracketArgs = [] := by
    intro h
    apply List.length_eq_zero.mp
    rw [← h2, h]
    rfl
  have hO : q.OrBracketBuilder = "" → q.OrBracketArgs = [] := by
    intro h
    apply List.length_eq_zero.mp
    rw [← h3, h]
    rfl
  have hconds := buildCondition_conds resolve q
  have hhav := buildCondition_havingConds resolve q
  have p1 : ∀ c ∈ (buildCondition resolve q).2.conds, c.placeholders = c.argCount := by
    intro c hc
    rw [hconds] at hc
    by_cases hroot : q.QueryBuilder.length > 0
    · rw [if_pos (bracketedQuery_root_pos q hroot), bracketedQuery_QueryBuilder q hroot,
        bracketedQuery_QueryArgs q hroot hA hO] at hc
      by_cases hm : q.ConditionMap.length > 0 <;> simp [hm] at hc
      · rcases hc with hc | hc <;> subst hc
        · simp [Cond.placeholders, Cond.argCount, countPlaceholders_append, h1, h2, h3,
            Nat.add_assoc]
        · simp [Cond.placeholders, Cond.argCount]
      · subst hc
        simp [Cond.placeholders, Cond.argCount, countPlaceholders_append, h1, h2, h3,
          Nat.add_assoc]
    · rw [bracketedQuery_root_zero q hroot, if_neg hroot] at hc
      by_cases hm : q.ConditionMap.length > 0 <;> simp [hm] at hc
      subst hc
      simp [Cond.placeholders, Cond.argCount]
  have p2 : ∀ hv ∈ (buildCondition resolve q).2.havingConds,
      countPlaceholders hv.1 = hv.2.length := by
    intro hv hmem
    rw [hhav] at hmem
    by_cases hh : q.HavingBuilder.length > 0 <;> simp [hh] at hmem
    subst hmem
    exact h4
  refine ⟨p1, p2, ?_⟩
  have s1 := sum_map_eq_of_forall _ _ _ p1
  have s2 := sum_map_eq_of_forall _ _ _ p2
  unfold GormDB.totalPlaceholders GormDB.totalArgs
  omega

/-- C2 (witness): the spec's worked example is balanced (4 placeholders, 4
arguments). -/
theorem buildCondition_placeholder_arg_balance_witness :
    (buildCondition (fun s => s) exampleQuery).2.totalPlaceholders =
      (buildCondition (fun s => s) exampleQuery).2.totalArgs :=
  (buildCondition_placeholder_arg_balance (fun s => s) exampleQuery
    (by decide) (by decide) (by decide) (by decide)).2.2

/-! ### Claim C9 -/

/-- C9: `buildCondition` mutates the builder it compiles: with a non-empty
root predicate, the returned (mutated) query has the bracket texts appended
to `QueryBuilder` and the bracket arguments appended to `QueryArgs`; hence a
second compilation of the same instance — exactly what `SelectPage` does,
once through `SelectCount` and once for the data query — registers a `Where`
whose text and arguments contain each non-empty bracket group twice. -/
theorem buildCondition_double_compile_duplicates (resolve : String → String) (q : Query)
    (hroot : q.QueryBuilder.length > 0)
    (hA : q.AndBracketBuilder = "" → q.AndBracketArgs = [])
    (hO : q.OrBracketBuilder = "" → q.OrBracketArgs = []) :
    ((buildCondition resolve q).1.QueryBuilder =
      q.QueryBuilder ++ q.AndBracketBuilder ++ q.OrBracketBuilder) ∧
    ((buildCondition resolve q).1.QueryArgs =
      q.QueryArgs ++ q.AndBracketArgs ++ q.OrBracketArgs) ∧
    ((buildCondition resolve (buildCondition resolve q).1).2.conds =
      [Cond.expr
        (q.QueryBuilder ++ q.AndBracketBuilder ++ q.OrBracketBuilder
          ++ q.AndBracketBuilder ++ q.OrBracketBuilder)
        (q.QueryArgs ++ q.AndBracketArgs ++ q.OrBracketArgs
          ++ q.AndBracketArgs ++ q.OrBracketArgs)] ++
      (if q.ConditionMap.length > 0 then
        [Cond.mapCond (q.ConditionMap.map fun kv => (resolve kv.1, kv.2))]
      else [])) := by
  have hp := bracketedQuery_preserves q
  have hB := bracketedQuery_QueryBuilder q hroot
  have hArgs := bracketedQuery_QueryArgs q hroot hA hO
  have hpos := bracketedQuery_root_pos q hroot
  rw [buildCondition_fst]
  refine ⟨hB, hArgs, ?_⟩
  rw [buildCondition_conds]
  have hpos1 : (bracketedQuery q).QueryBuilder.length > 0 := hpos
  have hA1 : (bracketedQuery q).AndBracketBuilder = "" →
      (bracketedQuery q).AndBracketArgs = [] := by
    rw [hp.2.2.1, hp.2.2.2.1]; exact hA
  have hO1 : (bracketedQuery q).OrBracketBuilder = "" →
      (bracketedQuery q).OrBracketArgs = [] := by
    rw [hp.2.2.2.2.1, hp.2.2.2.2.2.1]; exact hO
  rw [if_pos (bracketedQuery_root_pos _ hpos1),
    bracketedQuery_QueryBuilder _ hpos1, bracketedQuery_QueryArgs _ hpos1 hA1 hO1,
    hB, hArgs, hp.2.2.1, hp.2.2.2.1, hp.2.2.2.2.1, hp.2.2.2.2.2.1,
    hp.2.2.2.2.2.2.1]

/-- C9 (witness): compiling the spec's worked example twice produces a second
statement whose predicate and arguments contain both bracket groups twice. -/
theorem buildCondition_double_compile_duplicates_witness :
    (buildCondition (fun s => s) (buildCondition (fun s => s) exampleQuery).1).2.conds =
      [Cond.expr
        "status = ? AND (city = ? AND zip = ?) OR (vip = ?) AND (city = ? AND zip = ?) OR (vip = ?)"
        [Val.intV 1, Val.strV "NY", Val.strV "10001", Val.boolV true,
          Val.strV "NY", Val.strV "10001", Val.boolV true]] := by
  have h := (buildCondition_double_compile_duplicates (fun s => s) exampleQuery
    (by decide) (by decide) (by decide)).2.2
  exact h.trans (by decide)

/-! ### Executor-path lemmas -/

@[simp] theorem paginate_conds (p : Page) (db : GormDB) :
    (paginate p db).conds = db.conds := rfl
@[simp] theorem paginate_error (p : Page) (db : GormDB) :
    (paginate p db).error = db.error := rfl
@[simp] theorem paginate_events (p : Page) (db : GormDB) :
    (paginate p db).events = db.events := rfl

@[simp] theorem Find_fst (db : GormDB) (ex : Executor) : (db.Find ex).1 = ex.findRows := rfl
@[simp] theorem Find_conds (db : GormDB) (ex : Executor) :
    (db.Find ex).2.conds = db.conds := rfl
@[simp] theorem Find_error (db : GormDB) (ex : Executor) :
    (db.Find ex).2.error = db.error := rfl
@[simp] theorem Find_events (db : GormDB) (ex : Executor) :
    (db.Find ex).2.events = db.events ++ [QueryEvent.dataQuery] := rfl

@[simp] theorem Scan_fst (db : GormDB) (ex : Executor) : (db.Scan ex).1 = ex.findRows := rfl
@[simp] theorem Scan_events (db : GormDB) (ex : Executor) :
    (db.Scan ex).2.events = db.events ++ [QueryEvent.dataQuery] := rfl

theorem Count_events (db : GormDB) (ex : Executor) :
    (db.Count ex).2.events = db.events ++ [QueryEvent.countQuery] := by
  cases hc : ex.countErr <;> simp [GormDB.Count, hc]

theorem SelectCount_query (r : String → String) (ex : Executor) (q : Query) :
    (SelectCount r ex q).2.1 = bracketedQuery q := rfl

theorem SelectCount_error (r : String → String) (ex : Executor) (q : Query) :
    (SelectCount r ex q).2.2.error = ex.countErr := by
  cases hc : ex.countErr <;>
    simp [SelectCount, GormDB.Count, hc, buildCondition_error]

theorem SelectCount_events (r : String → String) (ex : Executor) (q : Query) :
    (SelectCount r ex q).2.2.events = [QueryEvent.countQuery] := by
  cases hc : ex.countErr <;>
    simp [SelectCount, GormDB.Count, hc, buildCondition_events]

theorem SelectCount_fst (r : String → String) (ex : Executor) (q : Query)
    (h : ex.countErr = none) : (SelectCount r ex q).1 = ex.countValue := by
  simp [SelectCount, GormDB.Count, h]

/-! ### Claim C3 -/

/-- A page descriptor that already carries a record when the call starts. -/
def preloadedPage : Page :=
  { Current := 2, Size := 10, Records := [Val.intV 7] }

/-- An executor whose count query fails. -/
def badCountExecutor : Executor :=
  { countErr := some (GormErr.execError "count failed") }

/-- C3 (counterexample): the claim asserts that on a failed count the page is
returned "with its Records empty".  The error path of `SelectPage`
(dao.go:201-203) returns the caller's page untouched, so a descriptor that
entered the call with a record still carries it. -/
theorem SelectPage_count_error_keeps_prior_records :
    badCountExecutor.countErr.isSome = true ∧
    (SelectPage (fun s => s) badCountExecutor preloadedPage exampleQuery).1.Records =
      [Val.intV 7] := by decide

/-- C3 (amended): `SelectPage` (and its Model/Maps variants) issues the count
query first; if the count errors, the page is returned immediately with the
error, its Records and Total left unchanged (hence empty/unset for a freshly
constructed page), and the data query is never issued; otherwise Total is set
from the count and the data query runs and populates Records. -/
theorem SelectPage_count_first_short_circuit (resolve : String → String) (ex : Executor)
    (page : Page) (q : Query) :
    ((∀ e, ex.countErr = some e →
      (SelectPage resolve ex page q).1 = page ∧
      (SelectPage resolve ex page q).2.1.error = some e ∧
      (SelectPage resolve ex page q).2.2 = [QueryEvent.countQuery] ∧
      (SelectPageModel resolve ex page q).1 = page ∧
      (SelectPageModel resolve ex page q).2.2 = [QueryEvent.countQuery] ∧
      (SelectPageMaps resolve ex page q).1 = page ∧
      (SelectPageMaps resolve ex page q).2.2 = [QueryEvent.countQuery])) ∧
    (ex.countErr = none →
      (SelectPage resolve ex page q).1.Total = ex.countValue ∧
      (SelectPage resolve ex page q).1.Records = ex.findRows ∧
      (SelectPage resolve ex page q).2.2 =
        [QueryEvent.countQuery, QueryEvent.dataQuery]) := by
  constructor
  · intro e he
    simp [SelectPage, SelectPageModel, SelectPageMaps, SelectCount_error,
      SelectCount_events, he]
  · intro h
    simp [SelectPage, SelectCount_error, SelectCount_events, SelectCount_fst,
      buildCondition_events, h]

/-- C3 (witness): with a failing count and a fresh page, the page comes back
with empty Records and unchanged Total, the count error is reported, and only
the count query was issued; with a succeeding count both queries run. -/
theorem SelectPage_count_first_short_circuit_witness :
    (SelectPage (fun s => s) badCountExecutor (NewPage 2 10) exampleQuery).1 =
      NewPage 2 10 ∧
    (SelectPage (fun s => s) badCountExecutor (NewPage 2 10) exampleQuery).2.2 =
      [QueryEvent.countQuery] ∧
    (SelectPage (fun s => s) { countValue := 5, findRows := [Val.intV 9] }
        (NewPage 2 10) exampleQuery).2.2 =
      [QueryEvent.countQuery, QueryEvent.dataQuery] := by
  refine ⟨?_, ?_, ?_⟩
  · exact ((SelectPage_count_first_short_circuit (fun s => s) badCountExecutor
      (NewPage 2 10) exampleQuery).1 (GormErr.execError "count failed") (by decide)).1
  · exact ((SelectPage_count_first_short_circuit (fun s => s) badCountExecutor
      (NewPage 2 10) exampleQuery).1 (GormErr.execError "count failed") (by decide)).2.2.1
  · exact ((SelectPage_count_first_short_circuit (fun s => s)
      { countValue := 5, findRows := [Val.intV 9] } (NewPage 2 10) exampleQuery).2
      (by decide)).2.2

/-! ### Claim C10 -/

/-- C10: `SelectPage` never writes back into the page descriptor's Current and
Size fields — the defaulting for non-positive values happens on locals inside
`paginate` — so the returned descriptor agrees with the input on Current and
Size and can differ from it only in Total and Records. -/
theorem SelectPage_preserves_current_and_size (resolve : String → String) (ex : Executor)
    (page : Page) (q : Query) :
    (SelectPage resolve ex page q).1.Current = page.Current ∧
    (SelectPage resolve ex page q).1.Size = page.Size ∧
    (SelectPage resolve ex page q).1 =
      { page with Total := (SelectPage resolve ex page q).1.Total,
                  Records := (SelectPage resolve ex page q).1.Records } := by
  cases hc : ex.countErr <;> simp [SelectPage, SelectCount_error, hc]

/-! ### Claim C4 -/

/-- C4: the pagination computation treats `current <= 0` as 1 and `size <= 0`
as 10, and applies exactly `offset = (effectiveCurrent - 1) * effectiveSize`
and `limit = effectiveSize` to the handle; it is a pure total computation. -/
theorem paginate_computeOffsetLimit_correct (p : Page) (db : GormDB) :
    (paginate p db).offsetVal = some (computeOffsetLimit p.Current p.Size).1 ∧
    (paginate p db).limitVal = some (computeOffsetLimit p.Current p.Size).2 ∧
    paginate p db =
      (db.Offset ((effectiveCurrent p.Current - 1) * effectiveSize p.Size)).Limit
        (effectiveSize p.Size) :=
  ⟨rfl, rfl, rfl⟩

/-! ### Claim C5 -/

/-- An executor for a predicate matching no record: gorm's `First` yields
`ErrRecordNotFound` with zero rows affected. -/
def notFoundExecutor : Executor := {}

/-- C5 (code-bug evidence): when the predicate matches no record, `Exists`
(dao.go:159-162) forwards `dbRes.Error` verbatim, so it returns `false`
together with gorm's record-not-found error — not, as the claim and the
spec's error-handling section require, a false result without an error. -/
theorem Exists_no_match_returns_error :
    Exists (fun s => s) notFoundExecutor exampleQuery =
      (false, some GormErr.recordNotFound) := by decide

/-! ### Claims C7 and C8 -/

/-- C7: batch insertion with an empty record list performs no create call and
returns the executor handle unchanged, for both `InsertBatch` and
`InsertBatchSize` (dao.go:65-67, 75-77). -/
theorem insertBatch_empty_is_noop (db : GormDB) (batchSize : Int) :
    InsertBatch [] db = db ∧ InsertBatchSize [] batchSize db = db :=
  ⟨rfl, rfl⟩

/-- C8: for a non-empty record list, `InsertBatchSize` with a non-positive
size substitutes the process-wide default of 1000 and thus behaves exactly
like `InsertBatch`; a positive size is passed through unchanged. -/
theorem insertBatchSize_default_substitution (entities : List Val) (batchSize : Int)
    (db : GormDB) (hne : entities.length ≠ 0) :
    (batchSize ≤ 0 → InsertBatchSize entities batchSize db = InsertBatch entities db) ∧
    (0 < batchSize →
      InsertBatchSize entities batchSize db = db.CreateInBatches entities batchSize) := by
  constructor
  · intro h
    simp [InsertBatchSize, InsertBatch, hne, h]
  · intro h
    have h2 : ¬ batchSize ≤ 0 := by omega
    simp [InsertBatchSize, hne, h2]

/-- C8 (witness): inserting one record with size 0 equals inserting it with
the default size, and a positive size is used as given. -/
theorem insertBatchSize_default_substitution_witness :
    InsertBatchSize [Val.intV 1] 0 getDb = InsertBatch [Val.intV 1] getDb ∧
    InsertBatchSize [Val.intV 1] 7 getDb = getDb.CreateInBatches [Val.intV 1] 7 :=
  ⟨(insertBatchSize_default_substitution [Val.intV 1] 0 getDb (by decide)).1 (by decide),
   (insertBatchSize_default_substitution [Val.intV 1] 7 getDb (by decide)).2 (by decide)⟩

/-! ### Claim C6 -/

theorem findPkColumn_no_pk (naming : String → String) (fields : List GoField)
    (h : ∀ g ∈ fields, g.isPrimaryKey = false) : findPkColumn naming fields = "" := by
  induction fields with
  | nil => rfl
  | cons f rest ih =>
    have hf := h f (by simp)
    rw [findPkColumn, if_neg (by simp [hf])]
    exact ih fun g hg => h g (by simp [hg])

theorem findPkColumn_first (naming : String → String) (pre post : List GoField)
    (f : GoField) (hpre : ∀ g ∈ pre, g.isPrimaryKey = false)
    (hf : f.isPrimaryKey = true) :
    findPkColumn naming (pre ++ f :: post) = f.columnTag.getD (naming f.name) := by
  induction pre with
  | nil =>
    rw [List.nil_append, findPkColumn, if_pos (by simp [hf])]
    cases f.columnTag <;> rfl
  | cons g rest ih =>
    have hg := hpre g (by simp)
    rw [List.cons_append, findPkColumn, if_neg (by simp [hg])]
    exact ih fun x hx => hpre x (by simp [hx])

/-- A concrete naming transformation used in witnesses (nothing settled here
depends on the exact convention, only on the transformation being applied). -/
def demoNaming (s : String) : String := "col_" ++ s

/-- C6 (counterexample): the claim asserts that an explicitly declared column
name is returned verbatim.  A primary-key field whose `column:` tag is
present but empty (gorm's tag parser maps `column:` to a present, empty
setting) resolves to the configured default `"id"`, not to the declared empty
name: dao.go:337-339 falls back whenever the resolved name is empty. -/
theorem getPkColumnName_empty_column_tag_not_verbatim :
    getPkColumnName demoNaming
      [{ name := "Code", isPrimaryKey := true, columnTag := some "" }] = "id" ∧
    ("id" : String) ≠ "" := by decide

/-- C6 (amended): scanning in declaration order, the first field marked as
primary key wins; its explicit column name is returned verbatim when
non-empty, otherwise the conventional transformation of its identifier is
used; when the resolved name is empty, and when no field is marked as primary
key (including a type with zero fields), resolution returns the configured
default name rather than failing. -/
theorem getPkColumnName_resolution (naming : String → String)
    (fields pre post : List GoField) (f : GoField) :
    ((∀ g ∈ fields, g.isPrimaryKey = false) →
      getPkColumnName naming fields = DefaultPrimaryName) ∧
    ((∀ g ∈ pre, g.isPrimaryKey = false) → f.isPrimaryKey = true →
      getPkColumnName naming (pre ++ f :: post) =
        (if f.columnTag.getD (naming f.name) = "" then DefaultPrimaryName
         else f.columnTag.getD (naming f.name))) := by
  constructor
  · intro h
    rw [getPkColumnName, findPkColumn_no_pk naming fields h, if_pos rfl]
  · intro hpre hf
    rw [getPkColumnName, findPkColumn_first naming pre post f hpre hf]

/-- C6 (witness): a type with zero fields resolves to the default `"id"`; an
explicitly named primary key returns `"uid"` verbatim; a marked but unnamed
primary key returns the conventionally derived name. -/
theorem getPkColumnName_resolution_witness :
    getPkColumnName demoNaming [] = "id" ∧
    getPkColumnName demoNaming
      [{ name := "UserId", isPrimaryKey := true, columnTag := some "uid" }] = "uid" ∧
    getPkColumnName demoNaming
      [{ name := "Name", isPrimaryKey := false, columnTag := none },
       { name := "UserId", isPrimaryKey := true, columnTag := none }] =
      demoNaming "UserId" := by
  refine ⟨?_, ?_, ?_⟩
  · exact ((getPkColumnName_resolution demoNaming [] [] []
      { name := "", isPrimaryKey := false, columnTag := none }).1 (by decide)).trans
      (by decide)
  · exact ((getPkColumnName_resolution demoNaming [] [] []
      { name := "UserId", isPrimaryKey := true, columnTag := some "uid" }).2
      (by decide) (by decide)).trans (by decide)
  · exact ((getPkColumnName_resolution demoNaming []
      [{ name := "Name", isPrimaryKey := false, columnTag := none }] []
      { name := "UserId", isPrimaryKey := true, columnTag := none }).2
      (by decide) (by decide)).trans (by decide)

end GormPlus
